import Mathlib

/-!
Verification of the Inversionson core against its natural-language
specification.

This file gives a shallow embedding, in Lean 4, of the parts of the
repository that the checked claims are about:

* the minibatch selector `LasifComponent.get_minibatch`
  (src/inversionson/components/lasif_comp.py),
* iteration numbering `Optimize.iteration_number` /
  `Optimize.find_iteration_numbers` and the HDF5 artifact accessors
  `get_h5_data` / `set_h5_data` (src/inversionson/optimizers/optimizer.py),
* the startup/config scaffolding of `Optimize.__init__` and
  `prepare_iteration` (same file),
* the remote interpolation worker script
  (src/inversionson/remote_scripts/interpolation.py),
* `LasifComponent.find_seismograms` (lasif_comp.py).

Python-level conventions used throughout the embedding:

* fallible Python statements are modelled in the `Except PyErr` monad;
  a raised exception is an `Except.error`;
* Python `set(...)` values are modelled as duplicate-free lists keeping the
  first occurrence of each element (a canonical determinization of the
  hash-dependent CPython iteration order; no theorem below depends on the
  chosen order);
* operations that the repository calls on external collaborators (LASIF,
  salvus) and that decide a claim are modelled from the spec; each such
  definition carries a doc comment starting with `Modelled from the spec:`.
-/

namespace Inversionson

/-- Python run-time errors (and the spec's error taxonomy) that the embedded
code can raise. -/
inductive PyErr where
  | typeError (msg : String)
  | valueError (msg : String)
  | fileNotFoundError (path : String)
  | fileExistsError (path : String)
  | exceptionRaised (msg : String)
  | selectionExhausted
  | inversionsonError (msg : String)
deriving DecidableEq, Repr

/-! ### Minibatch selector: `LasifComponent.get_minibatch` (lasif_comp.py 68-126) -/

/-- Python `set(l)` for a list of strings: duplicates removed, first
occurrence kept (canonical order; CPython's real iteration order is
hash-dependent). -/
def pySetOf (l : List String) : List String :=
  l.foldl (fun acc x => if x ∈ acc then acc else acc ++ [x]) []

/-- Python set difference `a - b` (supported for sets), on the list model. -/
def pySetDiff (a b : List String) : List String :=
  a.filter (fun x => decide (x ∉ b))

/-- Python `+` applied to two sets. The `set` type does not implement `+`,
so this raises `TypeError` (lasif_comp.py lines 113 and 125 do exactly
this: `list(set(batch) + set(add_batch))`). -/
def pySetPlus (_a _b : List String) : Except PyErr (List String) :=
  .error (.typeError "unsupported operand types for +: set and set")

/-- Python `count -= existing` where `count` is an `int` and `existing` a
`list` (lasif_comp.py line 99): `int - list` raises `TypeError`. -/
def pyIntSubList (_n : Int) (_l : List String) : Except PyErr Int :=
  .error (.typeError "unsupported operand types for -=: int and list")

/-- Modelled from the spec: `lasif.api.get_subset`, the sampling routine of
the Minibatch Selector. It lives in the external LASIF package, not under
src/. Per the spec it fills the requested number of slots by sampling from
the candidate events minus the already chosen ones, excluding duplicates,
and signals `SelectionExhausted` when the quota cannot be satisfied. The
spatial poisson-disc criterion is determinized to catalog order. -/
def get_subset (count : Int) (events : List String)
    (existing_events : Option (List String)) : Except PyErr (List String) :=
  let ex := existing_events.getD []
  let candidates := (pySetOf events).filter (fun e => decide (e ∉ ex))
  if count < 0 ∨ (candidates.length : Int) < count then
    .error .selectionExhausted
  else
    .ok (candidates.take count.toNat)

/-- Modelled from the spec: `salvus_opt.get_random_event(n, existing)`, an
external component (not under src/) that picks `n` events that are not in
`existing`; determinized to catalog order. -/
def get_random_event (n : Int) (existing : List String)
    (events : List String) : List String :=
  ((pySetOf events).filter (fun e => decide (e ∉ existing))).take n.toNat

/-- Inputs that `get_minibatch` gathers from its collaborators:
the event catalog (`self.list_events()`), the data read from salvus opt
(`find_blocked_events`, `get_batch_size`, the first-batch `num_events`),
the previous iteration's control group
(`prev_iter_info["new_control_group"]`, a list of event names per the
spec's data model), and `n_random_events_picked` from the project
config. -/
structure SelectorInputs where
  events : List String
  num_events_first : Int
  batch_size : Int
  blocked_events : List String
  use_these : Option (List String)
  new_control_group : List String
  n_random_events_picked : Int
deriving DecidableEq, Repr

/-- Shallow embedding of `LasifComponent.get_minibatch` (lasif_comp.py
68-126), statement by statement.  For `first = true` it returns
`lapi.get_subset(count, events, None)` directly (lines 78-91).  Otherwise
(lines 93-126) it runs `count -= existing` where `existing` is the
control-group list — `int - list`, a `TypeError` — and the later
`list(set(batch) + set(...))` unions (lines 113 and 125) apply `+` to two
sets, also a `TypeError`.  Python truthiness of `if use_these:` (`None`
and `[]` both falsy) is modelled explicitly. -/
def get_minibatch (inp : SelectorInputs) (first : Bool) :
    Except PyErr (List String) :=
  if first then
    get_subset inp.num_events_first inp.events none
  else do
    let blocked_events := inp.blocked_events
    let events := inp.events
    let existing := inp.new_control_group
    let count ← pyIntSubList inp.batch_size existing
    let elseBranch : Except PyErr (Int × List String × List String × List String) := do
      let batch := existing
      let (batch, existing) ←
        if blocked_events.length = 0 then do
          let rand_batch :=
            get_random_event inp.n_random_events_picked existing events
          let batch ← pySetPlus (pySetOf batch) (pySetOf rand_batch)
          pure (batch, batch)
        else
          pure (batch, existing)
      let avail_events := pySetDiff (pySetOf events) blocked_events
      pure (count, batch, avail_events, existing)
    let (count, batch, avail_events, existing) ←
      match inp.use_these with
      | none => elseBranch
      | some use_these =>
        if use_these.isEmpty then elseBranch
        else do
          let count := count - use_these.length
          let batch := use_these ++ existing
          let avail_events :=
            pySetDiff (pySetDiff (pySetOf events) blocked_events) use_these
          let existing := pySetOf (existing ++ use_these)
          pure (count, batch, avail_events, existing)
    let add_batch ← get_subset count avail_events (some existing)
    pySetPlus (pySetOf batch) (pySetOf add_batch)

/-! ### Iteration numbering: `Optimize.find_iteration_numbers` /
`Optimize.iteration_number` (optimizer.py 169-189).

Filenames are modelled as `List Char` so that Python's `str.split` can be
embedded as an executable function with provable behaviour. -/

/-- Python `s.split(sep)` for a one-character separator: splits on every
occurrence, keeping empty pieces, and `"".split(sep) == [""]`. -/
def pySplitChar (sep : Char) : List Char → List (List Char)
  | [] => [[]]
  | c :: rest =>
    match pySplitChar sep rest with
    | [] => [[]]
    | h :: t => if c = sep then [] :: h :: t else (c :: h) :: t

/-- The piece of a string before its first occurrence of `sep`
(specification side of `str.split(sep)[0]`). -/
def takeUntil (sep : Char) : List Char → List Char
  | [] => []
  | c :: rest => if c = sep then [] else c :: takeUntil sep rest

/-- The piece of a string after its last occurrence of `sep`
(specification side of `str.split(sep)[-1]`). -/
def afterLast (sep : Char) (s : List Char) : List Char :=
  (takeUntil sep s.reverse).reverse

/-- Python `l[-1]` on a list of split pieces, with `[]` for the (unreachable
here) empty list. -/
def pyLast : List (List Char) → List Char
  | [] => []
  | [x] => x
  | _ :: xs => pyLast xs

/-- Python `int(s)`: parses a decimal digit string (as produced by the
artifact naming convention), raising `ValueError` on anything else. Signs
and surrounding whitespace, which never occur in the parsed suffixes, are
not modelled. -/
def pyIntOfDigits (s : List Char) : Except PyErr Int :=
  if s ≠ [] ∧ s.all Char.isDigit then
    .ok (s.foldl (fun acc c => acc * 10 + ((c.toNat - 48 : Nat) : Int)) 0)
  else
    .error (.valueError "invalid literal for int with base 10")

/-- The parse `int(model.split(".")[0].split("_")[-1])` applied to one model
filename (optimizer.py line 188). -/
def parse_model_index (model : List Char) : Except PyErr Int :=
  pyIntOfDigits (pyLast (pySplitChar '_' ((pySplitChar '.' model).headD [])))

/-- Shallow embedding of `Optimize.find_iteration_numbers` (optimizer.py
182-189): `models` is the result of globbing `MODELS/*.h5`; an empty glob
yields `[0]`, otherwise every filename suffix is parsed. -/
def find_iteration_numbers (models : List (List Char)) :
    Except PyErr (List Int) :=
  if models.length = 0 then .ok [0]
  else models.mapM parse_model_index

/-- Python `max(l)`: raises `ValueError` on an empty sequence. -/
def pyMax (l : List Int) : Except PyErr Int :=
  match l with
  | [] => .error (.valueError "max() arg is an empty sequence")
  | x :: xs => .ok (xs.foldl max x)

/-- Shallow embedding of the `Optimize.iteration_number` property
(optimizer.py 169-172): `max(self.find_iteration_numbers())`. -/
def iteration_number (models : List (List Char)) : Except PyErr Int := do
  pyMax (← find_iteration_numbers models)

/-- The numeric value of a decimal digit string (specification side of the
parse, used to state what `iteration_number` computes). -/
def digitsVal (s : List Char) : Int :=
  s.foldl (fun acc c => acc * 10 + ((c.toNat - 48 : Nat) : Int)) 0

/-! ### Artifact store: `Optimize.get_h5_data` / `Optimize.set_h5_data`
(optimizer.py 370-413).

The HDF5 container `MODEL/data` is a rank-3 tensor that the code only ever
slices as `data[:, j, :]` (whole slabs along the middle, parameter,
dimension).  The embedding therefore models the file as its parsed
dimension labels together with the map from a middle index `j` to the
`[:, j, :]` slab, the slab contents staying abstract in `α`.  The string
munging of the `DIMENSION_LABELS` attribute in `get_parameter_indices` is
elided into the already-parsed `dim_labels` field. -/

structure H5Model (α : Type) where
  dim_labels : List String
  data : Nat → α

/-- Shallow embedding of `Optimize.get_parameter_indices` (optimizer.py
370-384): `dim_labels.index(param)` for each configured parameter.
`List.indexOf` is Python's `list.index`; the theorems below assume every
parameter occurs in the labels, where the two agree. -/
def get_parameter_indices (parameters : List String) (file : H5Model α) :
    List Nat :=
  parameters.map (fun param => file.dim_labels.indexOf param)

/-- Shallow embedding of `Optimize.get_h5_data` (optimizer.py 386-394):
returns `data[:, indices, :]`, the slabs of the configured parameters in
configuration order. -/
def get_h5_data (parameters : List String) (file : H5Model α) : List α :=
  (get_parameter_indices parameters file).map file.data

/-- The in-memory update loop of `set_h5_data`:
`for i in range(len(indices)): data_copy[:, indices[i], :] = data[:, i, :]`,
as a fold over the `(indices[i], data[i])` pairs. -/
def write_loop (f : Nat → α) (pairs : List (Nat × α)) : Nat → α :=
  pairs.foldl (fun acc p => Function.update acc p.1 p.2) f

/-- Shallow embedding of `Optimize.set_h5_data` (optimizer.py 396-413),
minus the existence check handled by `set_h5_data_file` below: load the
stored tensor, overwrite the configured parameter slabs in memory, sort
the indices (`indices.sort()`), and persist `dat[:, indices, :] =
data_copy[:, indices, :]`.  Returns the written file together with the
sorted index list used in the final write, so that the write order can be
stated. -/
def set_h5_data (parameters : List String) (file : H5Model α)
    (data : List α) : H5Model α × List Nat :=
  let indices := get_parameter_indices parameters file
  let data_copy := write_loop file.data (indices.zip data)
  let sorted_indices := List.insertionSort (· ≤ ·) indices
  ({ dim_labels := file.dim_labels
     data := fun j => if j ∈ sorted_indices then data_copy j else file.data j },
   sorted_indices)

/-- Shallow embedding of the file-level behaviour of `Optimize.set_h5_data`
(optimizer.py 396-399): the artifact directory is a map from filename to
stored container; a write into a missing file raises
`Exception("only works on existing files.")` before touching anything. The
pair returned is (directory after the call, raised error or unit). -/
def set_h5_data_file (fsys : String → Option (H5Model α))
    (parameters : List String) (filename : String) (data : List α) :
    (String → Option (H5Model α)) × Except PyErr Unit :=
  match fsys filename with
  | none => (fsys, .error (.exceptionRaised "only works on existing files."))
  | some file =>
    (Function.update fsys filename (some (set_h5_data parameters file data).1),
     .ok ())

/-! ### Startup configuration: `Optimize.__init__` lines 62-80 and
`Optimize._write_initial_config` (optimizer.py 131-147). -/

/-- The optimizer configuration document `opt_config.toml`.  `step_length`
is kept as an exact rational (the file stores the decimal `0.001`);
`max_iterations` is optional (`_read_config` treats an absent key as
unbounded). -/
structure OptConfig where
  step_length : ℚ
  parameters : List String
  initial_model : String
  max_iterations : Option Int
deriving DecidableEq, Repr

/-- The default configuration written by `Optimize._write_initial_config`
(optimizer.py 135-140). -/
def initial_config : OptConfig :=
  { step_length := 1 / 1000
    parameters := ["VSV", "VSH", "VPV", "VPH"]
    initial_model := ""
    max_iterations := some 1000 }

/-- Outcome of the startup slice of `Optimize.__init__`: `halted` models
`sys.exit()`, `continued` models falling through to the rest of the
constructor. -/
inductive StartupResult where
  | halted
  | continued
deriving DecidableEq, Repr

/-- Shallow embedding of `Optimize.__init__` lines 62-80: if
`opt_config.toml` does not exist, `_write_initial_config()` writes the
default config and the process exits; otherwise `_read_config()` loads it
and the process exits if `initial_model` is the empty string.  The state
component is the config file on disk (`none` = missing). -/
def optimize_startup (config_file : Option OptConfig) :
    Option OptConfig × StartupResult :=
  match config_file with
  | none => (some initial_config, .halted)
  | some config =>
    if config.initial_model = "" then (some config, .halted)
    else (some config, .continued)

/-! ### Iteration preparation: `Optimize.prepare_iteration` (optimizer.py
207-237) and `LasifComponent.has_iteration` (lasif_comp.py 36-49). -/

/-- The state that `prepare_iteration` touches: the project's
`current_iteration` attribute, the iterations registered in the LASIF
event catalog (`lapi.list_iterations`), and the per-iteration bookkeeping
records (`create_iteration_toml`). -/
structure ProjectState where
  current_iteration : String
  lasif_iterations : List String
  iteration_tomls : List String
deriving DecidableEq, Repr

/-- Shallow embedding of `LasifComponent.has_iteration` (lasif_comp.py
36-49).  The Python function returns `True` when the catalog is a list
containing the name, `False` when the catalog is not a list, and falls off
the end (returning `None`) when the catalog is a list not containing the
name; `None` and `False` are both falsy at the call site, so the embedding
returns `false` for both. -/
def has_iteration (iterations : Option (List String)) (it_name : String) :
    Bool :=
  match iterations with
  | some its => decide (it_name ∈ its)
  | none => false

/-- Shallow embedding of `LasifComponent.set_up_iteration` (lasif_comp.py
51-66).  When the name is already registered it emits a non-fatal warning
(not modelled); `lapi.set_up_iteration` is modelled from the spec as
registering the iteration in the catalog. -/
def set_up_iteration (st : ProjectState) (name : String)
    (_events : List String) : ProjectState :=
  { st with lasif_iterations := st.lasif_iterations ++ [name] }

/-- Substring test used for Python's `"validation" in it_name`. -/
def containsValidation (it_name : String) : Bool :=
  (it_name.toList.tails.filter
    (fun t => "validation".toList.isPrefixOf t)) ≠ []

/-- Shallow embedding of `Optimize.prepare_iteration` (optimizer.py
207-237).  Following the source order: `change_attribute
("current_iteration", it_name)` first, then the `has_iteration` check
raising `InversionsonError(f"Iteration {it_name} already exists")`, then
the event-list defaulting, `set_up_iteration`, and
`create_iteration_toml`.  The mesh moving and source-time-function upload
at the end are external side effects with no bearing on this state.  The
pair returned is (state after the call, raised error or unit). -/
def prepare_iteration (st : ProjectState) (it_name : String)
    (all_events validation_dataset : List String)
    (events : Option (List String)) : ProjectState × Except PyErr Unit :=
  let st := { st with current_iteration := it_name }
  let validation := containsValidation it_name
  if has_iteration (some st.lasif_iterations) it_name then
    (st, .error (.inversionsonError ("Iteration " ++ it_name ++ " already exists")))
  else
    let events :=
      match events with
      | some e => e
      | none => if validation then validation_dataset else all_events
    let st := set_up_iteration st it_name events
    let st := { st with iteration_tomls := st.iteration_tomls ++ [it_name] }
    (st, .ok ())

/-! ### Remote worker script: interpolation.py. -/

/-- The `mesh_info` block of the worker's input document.  Numeric mesh
parameters (periods, element counts, ellipticity, topography and ocean
loading files) only parameterize the external mesh builder and are carried
abstractly by `Mesh.smoothie`. -/
structure MeshInfo where
  event_name : String
  min_period : ℚ
  elems_per_quarter : Int
deriving DecidableEq, Repr

/-- The `source_info` block (moment-tensor source description). -/
structure SourceInfo where
  latitude : ℚ
  longitude : ℚ
  depth_in_m : ℚ
  side_set : String
deriving DecidableEq, Repr

/-- One receiver entry of the `receiver_info` block. -/
structure ReceiverInfo where
  latitude : ℚ
  longitude : ℚ
  network_code : String
  station_code : String
deriving DecidableEq, Repr

/-- The `simulation_info` block. -/
structure SimulationInfo where
  end_time : ℚ
  time_step : ℚ
  start_time : ℚ
  attenuation : Bool
  absorbing_boundaries : Bool
  minimum_period : ℚ
deriving DecidableEq, Repr

/-- Mesh artifacts as a free algebra over the external engines: a mesh
already stored on disk, a mesh freshly built by `SmoothieSEM`
(`create_mesh`, interpolation.py 29-60), or the result of
`multi_mesh.api.gll_2_gll_layered_multi` interpolating the named
parameters from a source mesh onto a target mesh. -/
inductive Mesh where
  | stored (tag : String)
  | smoothie (mesh_info : MeshInfo) (source_info : SourceInfo)
  | interpolated (parameters : List String) (src tgt : Mesh)
deriving DecidableEq, Repr

/-- The simulation description document written by
`create_simulation_object` (interpolation.py 91-165) to
`output/simulation_dict.toml`. -/
structure SimulationDoc where
  source : SourceInfo
  receivers : List ReceiverInfo
  simulation : SimulationInfo
  mesh_path : String
deriving DecidableEq, Repr

/-- The files the worker script reads and writes: the per-event mesh
storage (`mesh_folder/event/mesh.h5`), the long-term storage, the standard
gradient mesh (`mesh_folder/standard_gradient/mesh.h5`), the local
`from_mesh.h5` / `to_mesh.h5`, the output mesh, and the simulation
description document. -/
structure RemoteFs where
  event_mesh : Option Mesh
  long_term_event_mesh : Option Mesh
  standard_gradient_mesh : Option Mesh
  from_mesh : Option Mesh
  to_mesh : Option Mesh
  output_mesh : Option Mesh
  simulation_dict : Option SimulationDoc
deriving DecidableEq, Repr

/-- Shallow embedding of `create_mesh` (interpolation.py 14-60): reuse the
scratch copy if present, else the long-term copy, else build a fresh
SmoothieSEM mesh; the result lands in `./to_mesh.h5`. -/
def create_mesh (mesh_info : MeshInfo) (source_info : SourceInfo)
    (fs : RemoteFs) : RemoteFs :=
  match fs.event_mesh with
  | some m => { fs with to_mesh := some m }
  | none =>
    match fs.long_term_event_mesh with
    | some m => { fs with to_mesh := some m }
    | none => { fs with to_mesh := some (.smoothie mesh_info source_info) }

/-- Shallow embedding of `get_standard_gradient` (interpolation.py 63-68):
`shutil.copy` of the stored standard-gradient mesh to `./to_mesh.h5`,
raising `FileNotFoundError` when it is missing. -/
def get_standard_gradient (fs : RemoteFs) : Except PyErr RemoteFs :=
  match fs.standard_gradient_mesh with
  | none => .error (.fileNotFoundError "standard_gradient/mesh.h5")
  | some m => .ok { fs with to_mesh := some m }

/-- Shallow embedding of `interpolate_fields` (interpolation.py 80-88): the
external interpolation reads `from_mesh.h5` and `to_mesh.h5` (missing
input files are fatal) and rewrites the target with the interpolated
parameter fields. -/
def interpolate_fields (parameters : List String) (fs : RemoteFs) :
    Except PyErr RemoteFs :=
  match fs.from_mesh, fs.to_mesh with
  | some fm, some tm =>
    .ok { fs with to_mesh := some (.interpolated parameters fm tm) }
  | _, _ => .error (.fileNotFoundError "from_mesh.h5 or to_mesh.h5")

/-- Shallow embedding of `move_mesh` (interpolation.py 71-77): when no
scratch copy exists yet, copy `./output/mesh.h5` into the per-event mesh
storage (creating the folder); an existing copy is left alone. -/
def move_mesh (fs : RemoteFs) : Except PyErr RemoteFs :=
  match fs.event_mesh with
  | some _ => .ok fs
  | none =>
    match fs.output_mesh with
    | some m => .ok { fs with event_mesh := some m }
    | none => .error (.fileNotFoundError "output/mesh.h5")

/-- Shallow embedding of `create_simulation_object` (interpolation.py
91-165): builds the simulation description from the input blocks and the
output mesh path and writes it to `output/simulation_dict.toml`. -/
def create_simulation_object (_mesh_info : MeshInfo)
    (source_info : SourceInfo) (receiver_info : List ReceiverInfo)
    (simulation_info : SimulationInfo) (fs : RemoteFs) : RemoteFs :=
  { fs with
    simulation_dict := some
      { source := source_info
        receivers := receiver_info
        simulation := simulation_info
        mesh_path := "output/mesh.h5" } }

/-- The worker's input document `{mesh_info, source_info, receiver_info,
simulation_info, gradient}`. -/
structure InputDoc where
  mesh_info : MeshInfo
  source_info : SourceInfo
  receiver_info : List ReceiverInfo
  simulation_info : SimulationInfo
  gradient : Bool
deriving DecidableEq, Repr

/-- The fixed parameter set interpolated by the script
(interpolation.py line 188). -/
def interpolation_parameters : List String :=
  ["VPV", "VPH", "VSV", "VSH", "RHO"]

/-- Shallow embedding of the `__main__` block of interpolation.py
(lines 168-198): build or reuse a mesh (non-gradient) or fetch the
standard gradient mesh (gradient), interpolate the fixed parameter set
from `from_mesh.h5` onto it, move it to `output/mesh.h5`, and, for
non-gradient runs only, store the mesh for reuse and emit the simulation
description document. -/
def interpolation_main (info : InputDoc) (fs : RemoteFs) :
    Except PyErr RemoteFs := do
  let mesh_info := info.mesh_info
  let fs ←
    if !info.gradient then
      pure (create_mesh mesh_info info.source_info fs)
    else
      get_standard_gradient fs
  let fs ← interpolate_fields interpolation_parameters fs
  let fs := { fs with output_mesh := fs.to_mesh, to_mesh := none }
  if !info.gradient then
    let fs ← move_mesh fs
    pure (create_simulation_object mesh_info info.source_info
      info.receiver_info info.simulation_info fs)
  else
    pure fs

/-! ### Seismogram paths: `LasifComponent.find_seismograms`
(lasif_comp.py 373-395).

Paths are modelled as their component lists; `os.path.join` appends a
component. -/

/-- The filesystem as seen by `find_seismograms`: the set of existing
directories and the set of existing files, as component paths. -/
structure DirFs where
  dirs : List (List String)
  files : List (List String)
deriving DecidableEq, Repr

/-- Shallow embedding of `os.mkdir`: creates exactly one directory; raises
`FileExistsError` if it exists and `FileNotFoundError` if its parent does
not. -/
def pyMkdir (fs : DirFs) (path : List String) : Except PyErr DirFs :=
  if path ∈ fs.dirs then
    .error (.fileExistsError (String.intercalate "/" path))
  else if path.dropLast ∈ fs.dirs then
    .ok { fs with dirs := path :: fs.dirs }
  else
    .error (.fileNotFoundError (String.intercalate "/" path))

/-- The prefixing of lasif_comp.py lines 383-384: prepend `ITERATION_`
unless the name already starts with it. -/
def long_iteration_name (iteration : String) : String :=
  if iteration.startsWith "ITERATION_" then iteration
  else "ITERATION_" ++ iteration

/-- Shallow embedding of `LasifComponent.find_seismograms` (lasif_comp.py
373-395): normalize the iteration name, build
`<lasif_root>/SYNTHETICS/EARTHQUAKES/<iteration>/<event>`, create that
folder with `os.mkdir` when it does not exist, and return the path of
`receivers.h5` inside it together with the filesystem after the call. -/
def find_seismograms (lasif_root : List String) (fs : DirFs)
    (event iteration : String) : Except PyErr (List String × DirFs) := do
  let iteration := long_iteration_name iteration
  let event_folder :=
    lasif_root ++ ["SYNTHETICS", "EARTHQUAKES", iteration, event]
  let fs ←
    if event_folder ∈ fs.dirs then pure fs
    else pyMkdir fs event_folder
  pure (event_folder ++ ["receivers.h5"], fs)

/-! ### Concrete test fixtures used by the claim theorems and witnesses. -/

/-- A first-iteration selector call: catalog of five events, quota 3. -/
def selector_inputs_first : SelectorInputs :=
  { events := ["EV_A", "EV_B", "EV_C", "EV_D", "EV_E"]
    num_events_first := 3
    batch_size := 0
    blocked_events := []
    use_these := none
    new_control_group := []
    n_random_events_picked := 1 }

/-- A subsequent-iteration selector call: quota 3, control group
`["EV_A"]`, blocked `["EV_B"]`, no pinned events. -/
def selector_inputs_subsequent : SelectorInputs :=
  { events := ["EV_A", "EV_B", "EV_C", "EV_D", "EV_E"]
    num_events_first := 0
    batch_size := 3
    blocked_events := ["EV_B"]
    use_these := none
    new_control_group := ["EV_A"]
    n_random_events_picked := 1 }

/-- A subsequent-iteration selector call with pinned events
(`use_these = ["EV_C"]`). -/
def selector_inputs_pinned : SelectorInputs :=
  { events := ["EV_A", "EV_B", "EV_C", "EV_D", "EV_E"]
    num_events_first := 0
    batch_size := 4
    blocked_events := ["EV_B"]
    use_these := some ["EV_C"]
    new_control_group := ["EV_A"]
    n_random_events_picked := 1 }

end Inversionson

namespace Inversionson

/-! ## Theorems. -/

/-! ### Lemmas about the Python `str.split` model. -/

theorem pySplitChar_ne_nil (sep : Char) (s : List Char) :
    pySplitChar sep s ≠ [] := by
  cases s with
  | nil => simp [pySplitChar]
  | cons c rest =>
    simp only [pySplitChar]
    cases pySplitChar sep rest with
    | nil => simp
    | cons h t => by_cases hc : c = sep <;> simp [hc]

theorem takeUntil_append_sep (sep : Char) (xs ys : List Char) :
    takeUntil sep (xs ++ sep :: ys) = takeUntil sep xs := by
  induction xs with
  | nil => simp [takeUntil]
  | cons c cs ih => by_cases hc : c = sep <;> simp [takeUntil, hc, ih]

theorem takeUntil_of_not_mem (sep : Char) (xs : List Char) (h : sep ∉ xs) :
    takeUntil sep xs = xs := by
  induction xs with
  | nil => rfl
  | cons c cs ih =>
    have hc : ¬c = sep := fun e => h (by simp [e])
    have hcs : sep ∉ cs := fun m => h (List.mem_cons_of_mem _ m)
    simp [takeUntil, hc, ih hcs]

theorem takeUntil_append_of_mem (sep : Char) (xs ys : List Char)
    (h : sep ∈ xs) : takeUntil sep (xs ++ ys) = takeUntil sep xs := by
  induction xs with
  | nil => cases h
  | cons c cs ih =>
    by_cases hc : c = sep
    · simp [takeUntil, hc]
    · have hcs : sep ∈ cs := by
        rcases List.mem_cons.mp h with h1 | h1
        · exact absurd h1.symm hc
        · exact h1
      simp [takeUntil, hc, ih hcs]

theorem afterLast_of_not_mem (sep : Char) (v : List Char) (h : sep ∉ v) :
    afterLast sep v = v := by
  unfold afterLast
  rw [takeUntil_of_not_mem _ _ (by simpa using h)]
  exact List.reverse_reverse v

theorem afterLast_append_sep (sep : Char) (X s : List Char) (h : sep ∉ s) :
    afterLast sep (X ++ sep :: s) = s := by
  unfold afterLast
  rw [List.reverse_append, List.reverse_cons, List.append_assoc,
    show [sep] ++ X.reverse = sep :: X.reverse from rfl,
    takeUntil_append_sep, takeUntil_of_not_mem _ _ (by simpa using h)]
  exact List.reverse_reverse s

theorem pySplitChar_of_not_mem (sep : Char) (s : List Char) (h : sep ∉ s) :
    pySplitChar sep s = [s] := by
  induction s with
  | nil => rfl
  | cons c cs ih =>
    have hc : ¬c = sep := fun e => h (by simp [e])
    have hcs : sep ∉ cs := fun m => h (List.mem_cons_of_mem _ m)
    simp [pySplitChar, ih hcs, hc]

theorem pySplitChar_singleton (sep : Char) (s l : List Char)
    (h : pySplitChar sep s = [l]) : sep ∉ s ∧ l = s := by
  induction s generalizing l with
  | nil =>
    simp only [pySplitChar] at h
    have : l = [] := by simpa using h.symm
    simp [this]
  | cons c cs ih =>
    cases hsp : pySplitChar sep cs with
    | nil => exact absurd hsp (pySplitChar_ne_nil sep cs)
    | cons h' t =>
      by_cases hc : c = sep
      · rw [show pySplitChar sep (c :: cs) = [] :: h' :: t by
          simp [pySplitChar, hsp, hc]] at h
        simp at h
      · rw [show pySplitChar sep (c :: cs) = (c :: h') :: t by
          simp [pySplitChar, hsp, hc]] at h
        have ht : t = [] ∧ l = c :: h' := by
          have := h
          simp only [List.cons.injEq] at this
          exact ⟨this.2, this.1.symm⟩
        obtain ⟨ht, hl⟩ := ht
        rw [ht] at hsp
        obtain ⟨hmem, heq⟩ := ih h' hsp
        constructor
        · intro hm
          rcases List.mem_cons.mp hm with h1 | h1
          · exact hc h1.symm
          · exact hmem h1
        · rw [hl, heq]

theorem headD_pySplitChar (sep : Char) (s : List Char) :
    (pySplitChar sep s).headD [] = takeUntil sep s := by
  induction s with
  | nil => rfl
  | cons c cs ih =>
    cases hsp : pySplitChar sep cs with
    | nil => exact absurd hsp (pySplitChar_ne_nil sep cs)
    | cons h t =>
      by_cases hc : c = sep
      · simp [pySplitChar, hsp, hc, takeUntil]
      · have hh : h = takeUntil sep cs := by rw [← ih, hsp]; rfl
        simp [pySplitChar, hsp, hc, takeUntil, hh]

theorem pyLast_pySplitChar (sep : Char) (s : List Char) :
    pyLast (pySplitChar sep s) = afterLast sep s := by
  induction s with
  | nil => rfl
  | cons c cs ih =>
    cases hsp : pySplitChar sep cs with
    | nil => exact absurd hsp (pySplitChar_ne_nil sep cs)
    | cons h t =>
      by_cases hc : c = sep
      · rw [show pySplitChar sep (c :: cs) = [] :: h :: t by
          simp [pySplitChar, hsp, hc]]
        rw [show pyLast ([] :: h :: t) = pyLast (h :: t) from rfl, ← hsp, ih]
        rw [hc]
        show afterLast sep cs = afterLast sep (sep :: cs)
        unfold afterLast
        rw [List.reverse_cons,
          show cs.reverse ++ [sep] = cs.reverse ++ sep :: [] from rfl,
          takeUntil_append_sep]
      · rw [show pySplitChar sep (c :: cs) = (c :: h) :: t by
          simp [pySplitChar, hsp, hc]]
        cases t with
        | nil =>
          obtain ⟨hmem, heq⟩ := pySplitChar_singleton sep cs h hsp
          rw [show pyLast [c :: h] = c :: h from rfl, heq,
            afterLast_of_not_mem sep (c :: cs) (by
              intro hm
              rcases List.mem_cons.mp hm with h1 | h1
              · exact hc h1.symm
              · exact hmem h1)]
        | cons t1 t' =>
          have hmem : sep ∈ cs := by
            by_contra hnm
            rw [pySplitChar_of_not_mem sep cs hnm] at hsp
            simp at hsp
          rw [show pyLast ((c :: h) :: t1 :: t') = pyLast (t1 :: t') from rfl]
          rw [show pyLast (t1 :: t') = pyLast (h :: t1 :: t') from rfl, ← hsp, ih]
          unfold afterLast
          rw [List.reverse_cons,
            takeUntil_append_of_mem sep cs.reverse [c] (by simpa using hmem)]

theorem digitsVal_nonneg (s : List Char) : 0 ≤ digitsVal s := by
  unfold digitsVal
  suffices h : ∀ acc : Int, 0 ≤ acc →
      0 ≤ s.foldl (fun acc c => acc * 10 + ((c.toNat - 48 : Nat) : Int)) acc by
    exact h 0 le_rfl
  induction s with
  | nil => intro acc hacc; exact hacc
  | cons c cs ih =>
    intro acc hacc
    exact ih _ (add_nonneg (mul_nonneg hacc (by norm_num))
      (Int.natCast_nonneg _))

theorem parse_model_index_eval (dir s : List Char) (hdir : '.' ∉ dir)
    (hne : s ≠ []) (hdig : ∀ c ∈ s, c.isDigit) :
    parse_model_index (dir ++ ("model_".toList ++ (s ++ ".h5".toList))) =
      .ok (digitsVal s) := by
  have hdot : ∀ c ∈ s, c ≠ '.' := by
    intro c hc he
    have := hdig c hc
    rw [he] at this
    exact absurd this (by decide)
  have hund : ∀ c ∈ s, c ≠ '_' := by
    intro c hc he
    have := hdig c hc
    rw [he] at this
    exact absurd this (by decide)
  have h1 : (pySplitChar '.'
        (dir ++ ("model_".toList ++ (s ++ ".h5".toList)))).headD [] =
      dir ++ "model_".toList ++ s := by
    rw [headD_pySplitChar,
      show dir ++ ("model_".toList ++ (s ++ ".h5".toList)) =
        (dir ++ "model_".toList ++ s) ++ '.' :: "h5".toList by simp,
      takeUntil_append_sep]
    refine takeUntil_of_not_mem _ _ ?_
    intro hm
    rcases List.mem_append.mp hm with hm1 | hm1
    · rcases List.mem_append.mp hm1 with hm2 | hm2
      · exact hdir hm2
      · exact absurd hm2 (by decide)
    · exact hdot _ hm1 rfl
  have h2 : pyLast (pySplitChar '_' (dir ++ "model_".toList ++ s)) = s := by
    rw [pyLast_pySplitChar,
      show dir ++ "model_".toList ++ s =
        (dir ++ "model".toList) ++ '_' :: s by simp,
      afterLast_append_sep _ _ _ (fun hm => hund _ hm rfl)]
  unfold parse_model_index
  rw [h1, h2]
  unfold pyIntOfDigits digitsVal
  rw [if_pos ⟨hne, List.all_eq_true.mpr (fun c hc => hdig c hc)⟩]

theorem mapM_parse_models (dir : List Char) (hdir : '.' ∉ dir)
    (l : List (List Char))
    (h : ∀ s ∈ l, s ≠ [] ∧ ∀ c ∈ s, c.isDigit) :
    (l.map (fun s => dir ++ ("model_".toList ++ (s ++ ".h5".toList)))).mapM
        parse_model_index = .ok (l.map digitsVal) := by
  induction l with
  | nil => rfl
  | cons s rest ih =>
    simp only [List.map_cons, List.mapM_cons]
    rw [parse_model_index_eval dir s hdir (h s (List.mem_cons_self s rest)).1
        (h s (List.mem_cons_self s rest)).2,
      ih (fun t ht => h t (List.mem_cons_of_mem _ ht))]
    rfl

/-! ### Lemmas about the in-memory update loop of `set_h5_data`. -/

theorem write_loop_not_mem {α : Type} (f : Nat → α) (pairs : List (Nat × α))
    (a : Nat) (h : a ∉ pairs.map Prod.fst) : write_loop f pairs a = f a := by
  induction pairs generalizing f with
  | nil => rfl
  | cons p ps ih =>
    rw [show write_loop f (p :: ps) a =
      write_loop (Function.update f p.1 p.2) ps a from rfl]
    rw [ih _ (fun m => h (by simp [m]))]
    exact Function.update_noteq (fun e => h (by simp [e])) _ _

theorem write_loop_mem {α : Type} (f : Nat → α) (pairs : List (Nat × α))
    (a : Nat) (b : α) (hnd : (pairs.map Prod.fst).Nodup)
    (hmem : (a, b) ∈ pairs) : write_loop f pairs a = b := by
  induction pairs generalizing f with
  | nil => cases hmem
  | cons p ps ih =>
    rw [show write_loop f (p :: ps) a =
      write_loop (Function.update f p.1 p.2) ps a from rfl]
    simp only [List.map_cons, List.nodup_cons] at hnd
    rcases List.mem_cons.mp hmem with h1 | h1
    · cases h1.symm
      rw [write_loop_not_mem _ _ _ hnd.1]
      exact Function.update_same _ _ _
    · exact ih _ hnd.2 h1

/-- C3: For every set of existing model-artifact filenames (fixed-width
zero-padded digit suffixes in a dot-free model directory),
`iteration_number` equals the maximum iteration index parsed from the
filename suffixes, and equals 0 when no artifacts exist (the fold below
starts at 0, which coincides with `max(existing indices)` for the
nonempty case because parsed indices are nonnegative). -/
theorem iteration_number_is_max_of_artifacts (dir : List Char)
    (hdir : '.' ∉ dir) (suffixes : List (List Char))
    (hs : ∀ s ∈ suffixes, s ≠ [] ∧ ∀ c ∈ s, c.isDigit) :
    iteration_number (suffixes.map
        (fun s => dir ++ ("model_".toList ++ (s ++ ".h5".toList)))) =
      .ok ((suffixes.map digitsVal).foldl max 0) := by
  cases suffixes with
  | nil => rfl
  | cons s0 rest =>
    have hfind : find_iteration_numbers ((s0 :: rest).map
        (fun s => dir ++ ("model_".toList ++ (s ++ ".h5".toList)))) =
        .ok ((s0 :: rest).map digitsVal) := by
      unfold find_iteration_numbers
      rw [if_neg (by simp)]
      exact mapM_parse_models dir hdir (s0 :: rest) hs
    unfold iteration_number
    rw [hfind]
    show pyMax ((s0 :: rest).map digitsVal) = _
    unfold pyMax
    simp only [List.map_cons, List.foldl_cons]
    rw [max_eq_right (digitsVal_nonneg s0)]

/-- Witness for C3: with artifacts `model_00000.h5` and `model_00001.h5`
in the model directory, the iteration number is 1 (the scenario of the
claim); the hypotheses are discharged concretely. -/
theorem iteration_number_is_max_of_artifacts_witness :
    iteration_number ["/OPT/MODELS/model_00000.h5".toList,
        "/OPT/MODELS/model_00001.h5".toList] = .ok 1 := by
  have h := iteration_number_is_max_of_artifacts "/OPT/MODELS/".toList
    (by decide) [['0', '0', '0', '0', '0'], ['0', '0', '0', '0', '1']]
    (by decide)
  exact h

/-- C4: For every existing artifact, configured parameter subset and
tensor of matching shape: writing the subset and then reading it returns
the tensor exactly; reading any parameter not in the subset returns its
pre-write value unchanged; and the persisted index writes occur in sorted
order (the index list used by the final write is sorted). -/
theorem artifact_write_read_roundtrip {α : Type} (parameters : List String)
    (file : H5Model α) (T : List α) (hnodup : parameters.Nodup)
    (hsub : ∀ p ∈ parameters, p ∈ file.dim_labels)
    (hlen : T.length = parameters.length) :
    get_h5_data parameters (set_h5_data parameters file T).1 = T ∧
    (∀ q ∈ file.dim_labels, q ∉ parameters →
      get_h5_data [q] (set_h5_data parameters file T).1 =
        get_h5_data [q] file) ∧
    List.Sorted (· ≤ ·) (set_h5_data parameters file T).2 := by
  have hindlen : (get_parameter_indices parameters file).length =
      parameters.length := List.length_map _ _
  have hindnodup : (get_parameter_indices parameters file).Nodup :=
    List.Nodup.map_on
      (fun x hx y hy hf => (List.indexOf_inj (hsub x hx) (hsub y hy)).mp hf)
      hnodup
  have hfst : ((get_parameter_indices parameters file).zip T).map Prod.fst =
      get_parameter_indices parameters file :=
    List.map_fst_zip _ _ (by rw [hindlen, hlen])
  have hdata : ∀ (i : Nat) (hi : i < (get_parameter_indices parameters file).length)
      (hiT : i < T.length),
      (set_h5_data parameters file T).1.data
        ((get_parameter_indices parameters file)[i]) = T[i] := by
    intro i hi hiT
    show (if (get_parameter_indices parameters file)[i] ∈
        List.insertionSort (· ≤ ·) (get_parameter_indices parameters file) then
        write_loop file.data ((get_parameter_indices parameters file).zip T)
          ((get_parameter_indices parameters file)[i])
      else file.data ((get_parameter_indices parameters file)[i])) = _
    rw [if_pos ((List.mem_insertionSort _).mpr (List.getElem_mem hi))]
    refine write_loop_mem _ _ _ _ (by rw [hfst]; exact hindnodup) ?_
    have hzlen : i < ((get_parameter_indices parameters file).zip T).length := by
      rw [List.length_zip]
      omega
    have := List.getElem_zip (h := hzlen)
    rw [← this]
    exact List.getElem_mem hzlen
  refine ⟨?_, ?_, ?_⟩
  · show (get_parameter_indices parameters
        (set_h5_data parameters file T).1).map
        (set_h5_data parameters file T).1.data = T
    have hsame : get_parameter_indices parameters
        (set_h5_data parameters file T).1 =
        get_parameter_indices parameters file := rfl
    rw [hsame]
    refine List.ext_getElem (by rw [List.length_map, hindlen, hlen]) ?_
    intro i h₁ h₂
    rw [List.getElem_map]
    exact hdata i (by simpa using h₁) h₂
  · intro q hq hqp
    have hnotmem : file.dim_labels.indexOf q ∉
        get_parameter_indices parameters file := by
      intro hmem
      obtain ⟨p, hp, hpq⟩ := List.mem_map.mp hmem
      exact hqp ((List.indexOf_inj (hsub p hp) hq).mp hpq ▸ hp)
    show [(set_h5_data parameters file T).1.data
        (file.dim_labels.indexOf q)] = [file.data (file.dim_labels.indexOf q)]
    congr 1
    show (if file.dim_labels.indexOf q ∈
        List.insertionSort (· ≤ ·) (get_parameter_indices parameters file) then
        write_loop file.data ((get_parameter_indices parameters file).zip T)
          (file.dim_labels.indexOf q)
      else file.data (file.dim_labels.indexOf q)) = _
    rw [if_neg (fun m => hnotmem ((List.mem_insertionSort _).mp m))]
  · exact List.sorted_insertionSort _ _

/-- Witness for C4: a three-parameter artifact (`VPV`, `VSV`, `RHO`; slab
at index `j` holding `10 * j`), written on the subset `[VSV, VPV]` with
the tensor `[111, 222]`: reading the subset back gives the tensor, the
untouched `RHO` slab reads as before, and the persisted write order is
sorted. -/
theorem artifact_write_read_roundtrip_witness :
    get_h5_data ["VSV", "VPV"]
        (set_h5_data ["VSV", "VPV"]
          ⟨["VPV", "VSV", "RHO"], fun j => (j : Int) * 10⟩ [111, 222]).1 =
      [111, 222] ∧
    get_h5_data ["RHO"]
        (set_h5_data ["VSV", "VPV"]
          ⟨["VPV", "VSV", "RHO"], fun j => (j : Int) * 10⟩ [111, 222]).1 =
      get_h5_data ["RHO"] ⟨["VPV", "VSV", "RHO"], fun j => (j : Int) * 10⟩ ∧
    List.Sorted (· ≤ ·)
      (set_h5_data ["VSV", "VPV"]
        ⟨["VPV", "VSV", "RHO"], fun j => (j : Int) * 10⟩ [111, 222]).2 := by
  have h := artifact_write_read_roundtrip ["VSV", "VPV"]
    ⟨["VPV", "VSV", "RHO"], fun j => (j : Int) * 10⟩ [111, 222]
    (by decide) (by decide) rfl
  exact ⟨h.1, h.2.1 "RHO" (by decide) (by decide), h.2.2⟩

/-- C1: For every selector call with a supplied control group and
blocked-event set, the returned batch contains no element of
blocked_events, contains every element of the control group, and is
duplicate-free.  REFUTED BY THE CODE: every call with `first = False`
(the only calls that take a control group and blocked events) raises
`TypeError` before any batch is produced — `count -= existing` at
lasif_comp.py line 99 subtracts the control-group *list* from an int (the
same variable is concatenated as a list at lines 102 and 105), and the
later `list(set(batch) + set(add_batch))` unions at lines 113 and 125
apply `+` to two sets, which Python sets do not support.  The theorem
evaluates the embedded code: no input ever yields a batch. -/
theorem get_minibatch_always_raises_type_error (inp : SelectorInputs) :
    get_minibatch inp false =
      .error (.typeError "unsupported operand types for -=: int and list") :=
  rfl

/-- C2: The selector should return a batch of size exactly the quota when
satisfiable and signal SelectionExhausted otherwise.  The first-iteration
branch does return a quota-sized batch (first conjunct, quota 3 out of 5
events), but every subsequent-iteration call crashes with `TypeError`
(second conjunct) — neither a full batch nor a `SelectionExhausted`
signal. -/
theorem get_minibatch_quota_crash :
    (∃ batch, get_minibatch selector_inputs_first true = .ok batch ∧
      batch.length = 3) ∧
    get_minibatch selector_inputs_subsequent false =
      .error (.typeError "unsupported operand types for -=: int and list") :=
  ⟨⟨["EV_A", "EV_B", "EV_C"], rfl, rfl⟩, rfl⟩

/-- C9: The selector should be deterministic (identical inputs and seed
give an identical batch, including order).  On the code as written no
batch exists to compare: the evaluated call with pinned events — like
every other non-first call — raises `TypeError` at `count -= existing`
(lasif_comp.py line 99) before reaching the `list(set(...))` conversions
whose order the determinism requirement is about. -/
theorem get_minibatch_no_output_to_compare :
    get_minibatch selector_inputs_pinned false =
      .error (.typeError "unsupported operand types for -=: int and list") :=
  rfl

/-- C5: Writing into a non-existent artifact file raises the missing-file
error (`Exception("only works on existing files.")`, the spec's
`NotFound`), creates no file, and leaves the stored state unchanged: the
call returns the directory untouched together with the error, and the
target filename still maps to nothing. -/
theorem set_h5_data_missing_file_error {α : Type}
    (fsys : String → Option (H5Model α)) (parameters : List String)
    (filename : String) (data : List α) (h : fsys filename = none) :
    set_h5_data_file fsys parameters filename data =
      (fsys, .error (.exceptionRaised "only works on existing files.")) ∧
    (set_h5_data_file fsys parameters filename data).1 filename = none := by
  refine ⟨?_, ?_⟩ <;> simp [set_h5_data_file, h]

/-- Witness for C5 at a concrete empty directory. -/
theorem set_h5_data_missing_file_error_witness :
    set_h5_data_file (fun _ => (none : Option (H5Model Int))) ["VSV"]
        "model_00000.h5" [7] =
      (fun _ => none, .error (.exceptionRaised "only works on existing files.")) :=
  (set_h5_data_missing_file_error (fun _ => none) ["VSV"] "model_00000.h5" [7]
    rfl).1

/-- C7: A missing configuration file makes startup write the default
config (step_length 0.001, the four-parameter list, empty initial_model,
max_iterations 1000) and halt; startup also halts whenever initial_model
is empty; execution continues past startup exactly when a config file is
present and its initial_model is filled in. -/
theorem optimize_startup_halting :
    optimize_startup none = (some initial_config, .halted) ∧
    initial_config =
      { step_length := 1 / 1000
        parameters := ["VSV", "VSH", "VPV", "VPH"]
        initial_model := ""
        max_iterations := some 1000 } ∧
    (∀ config : OptConfig, config.initial_model = "" →
      optimize_startup (some config) = (some config, .halted)) ∧
    (∀ file : Option OptConfig, (optimize_startup file).2 = .continued →
      ∃ config, file = some config ∧ config.initial_model ≠ "") := by
  refine ⟨rfl, rfl, ?_, ?_⟩
  · intro config h
    simp [optimize_startup, h]
  · intro file h
    match file with
    | none => simp [optimize_startup] at h
    | some config =>
      by_cases hm : config.initial_model = ""
      · simp [optimize_startup, hm] at h
      · exact ⟨config, rfl, hm⟩

/-- Witness for C7: startup halts on a present config whose initial model
is still empty. -/
theorem optimize_startup_halting_witness :
    optimize_startup (some
        { step_length := 1 / 100
          parameters := ["VSV"]
          initial_model := ""
          max_iterations := none }) =
      (some
        { step_length := 1 / 100
          parameters := ["VSV"]
          initial_model := ""
          max_iterations := none }, .halted) :=
  optimize_startup_halting.2.2.1 _ rfl

/-- C6: `prepare_iteration` on a name already registered in the event
catalog fails with the AlreadyExists error (`InversionsonError("Iteration
<name> already exists")`); the failing call leaves the catalog and the
existing bookkeeping records exactly as they were (the returned state
changes only the `current_iteration` attribute, which the call sets
before the check).  On a name not registered, no such error is raised. -/
theorem prepare_iteration_already_exists
    (st : ProjectState) (it_name : String)
    (all_events validation_dataset : List String)
    (events : Option (List String)) :
    (it_name ∈ st.lasif_iterations →
      prepare_iteration st it_name all_events validation_dataset events =
        ({ st with current_iteration := it_name },
         .error (.inversionsonError
           ("Iteration " ++ it_name ++ " already exists")))) ∧
    (it_name ∉ st.lasif_iterations →
      (prepare_iteration st it_name all_events validation_dataset events).2 =
        .ok ()) := by
  constructor
  · intro h
    simp [prepare_iteration, has_iteration, h]
  · intro h
    simp [prepare_iteration, has_iteration, h]

/-- Witness for C6: preparing the already-registered iteration `it_0001`
fails with AlreadyExists and keeps the catalog and records intact. -/
theorem prepare_iteration_already_exists_witness :
    prepare_iteration ⟨"it_0000", ["it_0001"], ["it_0001"]⟩ "it_0001"
        ["EV_A"] [] none =
      (⟨"it_0001", ["it_0001"], ["it_0001"]⟩,
       .error (.inversionsonError "Iteration it_0001 already exists")) :=
  (prepare_iteration_already_exists ⟨"it_0000", ["it_0001"], ["it_0001"]⟩
    "it_0001" ["EV_A"] [] none).1 (by decide)

/-- C10: `find_seismograms` returns the path
`<lasif_root>/SYNTHETICS/EARTHQUAKES/ITERATION_<name>/<event>/receivers.h5`
(prefixing `ITERATION_` only when the given name does not already start
with it), creating the event directory when it does not exist and leaving
an already-existing directory — and every file — untouched.  The
hypothesis is that the containing iteration directory exists (the code
uses `os.mkdir`, which requires the parent). -/
theorem find_seismograms_path_and_frame
    (lasif_root : List String) (fs : DirFs) (event iteration : String)
    (hparent :
      lasif_root ++ ["SYNTHETICS", "EARTHQUAKES", long_iteration_name iteration]
        ∈ fs.dirs) :
    find_seismograms lasif_root fs event iteration =
      .ok (lasif_root ++ ["SYNTHETICS", "EARTHQUAKES",
            long_iteration_name iteration, event, "receivers.h5"],
        if lasif_root ++ ["SYNTHETICS", "EARTHQUAKES",
            long_iteration_name iteration, event] ∈ fs.dirs then fs
        else { fs with dirs :=
          (lasif_root ++ ["SYNTHETICS", "EARTHQUAKES",
            long_iteration_name iteration, event]) :: fs.dirs }) := by
  have hsplit :
      lasif_root ++ ["SYNTHETICS", "EARTHQUAKES",
        long_iteration_name iteration, event] =
      (lasif_root ++ ["SYNTHETICS", "EARTHQUAKES",
        long_iteration_name iteration]) ++ [event] := by
    simp
  by_cases hmem :
      lasif_root ++ ["SYNTHETICS", "EARTHQUAKES",
        long_iteration_name iteration, event] ∈ fs.dirs
  · simp [find_seismograms, hmem]
    rfl
  · have hdl :
        (lasif_root ++ ["SYNTHETICS", "EARTHQUAKES",
          long_iteration_name iteration, event]).dropLast =
        lasif_root ++ ["SYNTHETICS", "EARTHQUAKES",
          long_iteration_name iteration] := by
      rw [hsplit]; simp
    simp [find_seismograms, hmem, pyMkdir, hdl, hparent]

/-- Witness for C10: a concrete call with an iteration name lacking the
`ITERATION_` marker; the event folder is created next to nothing else,
and the returned path carries the prefixed name. -/
theorem find_seismograms_path_and_frame_witness :
    find_seismograms ["proj"]
        ⟨[["proj", "SYNTHETICS", "EARTHQUAKES", "ITERATION_it_0001"]], []⟩
        "EV_A" "it_0001" =
      .ok (["proj", "SYNTHETICS", "EARTHQUAKES", "ITERATION_it_0001",
            "EV_A", "receivers.h5"],
        ⟨[["proj", "SYNTHETICS", "EARTHQUAKES", "ITERATION_it_0001", "EV_A"],
          ["proj", "SYNTHETICS", "EARTHQUAKES", "ITERATION_it_0001"]], []⟩) := by
  have h := find_seismograms_path_and_frame ["proj"]
      ⟨[["proj", "SYNTHETICS", "EARTHQUAKES", "ITERATION_it_0001"]], []⟩
      "EV_A" "it_0001" (by decide)
  simpa using h

/-- C8: The remote worker with `gradient = false` builds a mesh or reuses
the stored one (scratch first, then long-term), interpolates the named
parameter set from the source mesh onto it, stores the resulting mesh for
reuse when no scratch copy existed, and emits the simulation-description
document; with `gradient = true` it instead reuses the stored standard
gradient mesh, performs the same interpolation, stores nothing per event,
and emits no simulation-description document. -/
theorem interpolation_worker_behavior (info : InputDoc) (fs : RemoteFs)
    (fm : Mesh) (hfrom : fs.from_mesh = some fm) :
    (info.gradient = false →
      interpolation_main info fs = .ok
        { event_mesh := some (fs.event_mesh.getD
            (.interpolated interpolation_parameters fm
              ((fs.event_mesh <|> fs.long_term_event_mesh).getD
                (.smoothie info.mesh_info info.source_info))))
          long_term_event_mesh := fs.long_term_event_mesh
          standard_gradient_mesh := fs.standard_gradient_mesh
          from_mesh := some fm
          to_mesh := none
          output_mesh := some (.interpolated interpolation_parameters fm
            ((fs.event_mesh <|> fs.long_term_event_mesh).getD
              (.smoothie info.mesh_info info.source_info)))
          simulation_dict := some
            { source := info.source_info
              receivers := info.receiver_info
              simulation := info.simulation_info
              mesh_path := "output/mesh.h5" } }) ∧
    (∀ g, info.gradient = true → fs.standard_gradient_mesh = some g →
      interpolation_main info fs = .ok
        { event_mesh := fs.event_mesh
          long_term_event_mesh := fs.long_term_event_mesh
          standard_gradient_mesh := some g
          from_mesh := some fm
          to_mesh := none
          output_mesh := some (.interpolated interpolation_parameters fm g)
          simulation_dict := fs.simulation_dict }) := by
  obtain ⟨em, lt, sg, fr, tm, om, sd⟩ := fs
  simp only [RemoteFs.mk.injEq] at hfrom ⊢
  cases hfrom
  constructor
  · intro hg
    cases em <;> cases lt <;>
      simp only [interpolation_main, hg, create_mesh, interpolate_fields,
        move_mesh, create_simulation_object, Bool.not_false, if_pos] <;>
      rfl
  · intro g hg hsg
    cases hsg
    cases em <;>
      simp only [interpolation_main, hg, get_standard_gradient,
        interpolate_fields, Bool.not_true] <;>
      rfl

/-- Witness for C8: a non-gradient run on an empty remote filesystem (only
`from_mesh.h5` present) builds a SmoothieSEM mesh, interpolates onto it,
stores it for the event, and emits the simulation document. -/
theorem interpolation_worker_behavior_witness :
    interpolation_main
        { mesh_info := { event_name := "EV_A", min_period := 30, elems_per_quarter := 40 }
          source_info := { latitude := 1, longitude := 2, depth_in_m := 3, side_set := "r1" }
          receiver_info := []
          simulation_info :=
            { end_time := 100, time_step := 1 / 10, start_time := 0
              attenuation := true, absorbing_boundaries := false
              minimum_period := 30 }
          gradient := false }
        { event_mesh := none, long_term_event_mesh := none
          standard_gradient_mesh := none, from_mesh := some (.stored "model")
          to_mesh := none, output_mesh := none, simulation_dict := none } =
      .ok
        { event_mesh := some (.interpolated interpolation_parameters
            (.stored "model")
            (.smoothie { event_name := "EV_A", min_period := 30, elems_per_quarter := 40 }
              { latitude := 1, longitude := 2, depth_in_m := 3, side_set := "r1" }))
          long_term_event_mesh := none
          standard_gradient_mesh := none
          from_mesh := some (.stored "model")
          to_mesh := none
          output_mesh := some (.interpolated interpolation_parameters
            (.stored "model")
            (.smoothie { event_name := "EV_A", min_period := 30, elems_per_quarter := 40 }
              { latitude := 1, longitude := 2, depth_in_m := 3, side_set := "r1" }))
          simulation_dict := some
            { source := { latitude := 1, longitude := 2, depth_in_m := 3, side_set := "r1" }
              receivers := []
              simulation :=
                { end_time := 100, time_step := 1 / 10, start_time := 0
                  attenuation := true, absorbing_boundaries := false
                  minimum_period := 30 }
              mesh_path := "output/mesh.h5" } } := by
  have h := (interpolation_worker_behavior
      { mesh_info := { event_name := "EV_A", min_period := 30, elems_per_quarter := 40 }
        source_info := { latitude := 1, longitude := 2, depth_in_m := 3, side_set := "r1" }
        receiver_info := []
        simulation_info :=
          { end_time := 100, time_step := 1 / 10, start_time := 0
            attenuation := true, absorbing_boundaries := false
            minimum_period := 30 }
        gradient := false }
      { event_mesh := none, long_term_event_mesh := none
        standard_gradient_mesh := none, from_mesh := some (.stored "model")
        to_mesh := none, output_mesh := none, simulation_dict := none }
      (.stored "model") rfl).1 rfl
  exact h

end Inversionson
